import Mathlib

/-!
Shallow embedding of `cache3/base.py` (class `BaseCache`): key construction and
validation, timeout resolution, eviction-policy dispatch, batch get, the
configuration entry point and the memoization wrapper, together with theorems
settling the specified properties.

Python strings are modelled as `List Char`; Python `None` passed where an
optional string is expected is `Option.none`; exceptions are an explicit
`Except` error channel; `warnings.warn` calls are an explicit list of emitted
warning categories (the message text is a log-only side channel, so only the
warning class is modelled).
-/

set_option autoImplicit false

namespace Cache3

/-- Python strings, modelled as lists of characters. -/
abbrev Str := List Char

/-- The Python exception classes that the embedded code can raise.
`InvalidCacheKey` is defined in `base.py` as a `ValueError` subclass carrying
the validator message. -/
inductive PyErr where
  | typeError (msg : Str)
  | valueError (msg : Str)
  | invalidCacheKey (msg : Option Str)
  deriving DecidableEq, Repr

/-- Warning categories emitted through `warnings.warn` in `base.py`:
`CacheKeyWarning` (a `RuntimeWarning` subclass) from `validate_key`, and plain
`RuntimeWarning` from the `evictor` property. -/
inductive Warn where
  | cacheKeyWarning
  | runtimeWarning
  deriving DecidableEq, Repr

/-- A Python value handed to `validate_key`: a string, or one of several
representative non-string values. -/
inductive PyObj where
  | str (s : Str)
  | int (n : Int)
  | pyNone
  | objInst (id : Nat)
  deriving DecidableEq, Repr

/-- `type(x).__name__` for the modelled values. -/
def pyTypeName : PyObj → Str
  | .str _ => "str".toList
  | .int _ => "int".toList
  | .pyNone => "NoneType".toList
  | .objInst _ => "object".toList

/-- The rendering `'%s' % x` of a modelled value (for plain objects the
address-dependent repr is modelled by the object's id). -/
def pyFormat : PyObj → Str
  | .str s => s
  | .int n => (toString n).toList
  | .pyNone => "None".toList
  | .objInst i => "<object object at ".toList ++ (toString i).toList ++ ">".toList

/-- Modelled from the spec: `cache3/setting.py` is not among the sources; §6
requires a tunable process-wide default tag constant. -/
def DEFAULT_TAG : Str := "default".toList

/-- Modelled from the spec: default timeout constant from `cache3/setting.py`
(not among the sources); in `get_backend_timeout` it doubles as the
"use the cache's configured default" sentinel. -/
def DEFAULT_TIMEOUT : ℚ := 300

/-- Modelled from the spec: lower timeout bound from `cache3/setting.py`. -/
def MIN_TIMEOUT : ℚ := 0

/-- Modelled from the spec: upper timeout bound from `cache3/setting.py`. -/
def MAX_TIMEOUT : ℚ := 31536000

/-- Modelled from the spec: maximum recommended key length from
`cache3/setting.py`; beyond it `validate_key` warns but still validates. -/
def MAX_KEY_LENGTH : Nat := 1024

/-- Modelled from the spec: default cache name from `cache3/setting.py`. -/
def DEFAULT_NAME : Str := "default.cache3".toList

/-- Modelled from the spec: default maximum entry count from
`cache3/setting.py`. -/
def DEFAULT_MAX_SIZE : Int := 10000

/-- Modelled from the spec: the LRU eviction policy name from
`cache3/setting.py`; §3 says the name resolves to the backend operation of the
same identifier (e.g. `lru_evict`), and `evictor` looks the name up verbatim. -/
def EVICT_LRU : Str := "lru_evict".toList

/-- Modelled from the spec: the FIFO eviction policy name from
`cache3/setting.py`. -/
def EVICT_FIFO : Str := "fifo_evict".toList

/-- Modelled from the spec: the LFU eviction policy name from
`cache3/setting.py`. -/
def EVICT_LFU : Str := "lfu_evict".toList

/-- Modelled from the spec: default eviction policy from `cache3/setting.py`
(§4.3 default is the LRU algorithm, matching the `evictor` docstring). -/
def DEFAULT_EVICT : Str := EVICT_LRU

/-- Modelled from the spec: default cull size from `cache3/setting.py`. -/
def DEFAULT_CULL_SIZE : Int := 10

/-- `BaseCache.make_key(key, tag)`.  `tag = Option.none` models Python `None`:
the membership test `':' in tag` then raises `TypeError` (`None` is not
iterable).  A tag containing the separator raises `ValueError`; otherwise the
result is `'%s:%s' % (key, tag)`. -/
def make_key (key : Str) (tag : Option Str) : Except PyErr Str :=
  match tag with
  | none => .error (.typeError "argument of type 'NoneType' is not iterable".toList)
  | some t =>
    if ':' ∈ t then
      .error (.valueError "The ':' is not expected in tag.".toList)
    else
      .ok (key ++ ':' :: t)

/-- Python `s.rsplit(sep, 1)` restricted to the split position: returns the
parts before and after the LAST occurrence of `sep`, or `Option.none` when
`sep` does not occur. -/
def rsplitOnce (sep : Char) : Str → Option (Str × Str)
  | [] => none
  | c :: cs =>
    match rsplitOnce sep cs with
    | some (b, a) => some (c :: b, a)
    | none => if c = sep then some ([], cs) else none

/-- `BaseCache._get_key_tag(serial_key)`: `serial_key.rsplit(':', 1)`, a
one-element list when the separator is absent and a two-element list
(split at the last separator) otherwise. -/
def get_key_tag (serial_key : Str) : List Str :=
  match rsplitOnce ':' serial_key with
  | some (b, a) => [b, a]
  | none => [serial_key]

/-- `BaseCache.validate_key(key)`: returns the pair `(message, validated)`
together with the list of warnings emitted.  A non-string key yields a failure
with a message; a string key always validates, with a `CacheKeyWarning` when
it is longer than `MAX_KEY_LENGTH`. -/
def validate_key (key : PyObj) : (Option Str × Bool) × List Warn :=
  match key with
  | .str s =>
    if MAX_KEY_LENGTH < s.length then ((none, true), [.cacheKeyWarning])
    else ((none, true), [])
  | k =>
    ((some ("The key must be a string (".toList ++ pyFormat k ++ " is ".toList
        ++ pyTypeName k ++ ")".toList), false), [])

/-- `BaseCache.make_and_validate_key(key, tag=None)`: composes `make_key` and
`validate_key`; raises `InvalidCacheKey` with the validator message when
validation fails, and propagates exceptions raised by `make_key`.  The Python
default for `tag` is `None`, so an absent tag is `Option.none` here. -/
def make_and_validate_key (key : Str) (tag : Option Str) :
    Except PyErr Str × List Warn :=
  match make_key key tag with
  | .error e => (.error e, [])
  | .ok k =>
    let r := validate_key (.str k)
    if r.1.2 then (.ok k, r.2) else (.error (.invalidCacheKey r.1.1), r.2)

/-- The validated configuration fields of a `BaseCache` instance.  Each field
models the private slot (`_name`, `_timeout`, `_max_size`, `_evict`,
`_cull_size`) that the class-level validator descriptor writes on successful
assignment — `base.py` itself reads `self._evict`, `self._name` and
`self._timeout`, so the descriptors store under the underscored names. -/
structure CacheState where
  name : Str
  timeout : ℚ
  max_size : Int
  evict : Str
  cull_size : Int
  deriving DecidableEq, Repr

/-- Modelled from the spec: `cache3/validate.py` is not among the sources.
`StringValidate(minsize=1, maxsize=MAX_KEY_LENGTH)` accepts strings whose
length lies within the bounds (§3: name is 1..MAX_KEY_LENGTH chars). -/
def validName (s : Str) : Bool :=
  decide (1 ≤ s.length) && decide (s.length ≤ MAX_KEY_LENGTH)

/-- Modelled from the spec: `NumberValidate(minvalue=MIN_TIMEOUT,
maxvalue=MAX_TIMEOUT)` accepts numbers within the bounds (§3). -/
def validTimeout (t : ℚ) : Bool :=
  decide (MIN_TIMEOUT ≤ t) && decide (t ≤ MAX_TIMEOUT)

/-- Modelled from the spec: `EnumerateValidate(EVICT_LRU, EVICT_FIFO,
EVICT_LFU)` accepts exactly the enumerated policy names (§3). -/
def validEvict (e : Str) : Bool :=
  decide (e = EVICT_LRU) || decide (e = EVICT_FIFO) || decide (e = EVICT_LFU)

/-- Modelled from the spec: `NumberValidate(minvalue=0)` accepts non-negative
numbers; used for both `max_size` and `cull_size` (§3). -/
def validNonNegative (v : Int) : Bool :=
  decide (0 ≤ v)

/-- Modelled from the spec: assignment through the `evict` validator
descriptor (§4.6): an out-of-bounds value fails immediately with a descriptive
error and the field retains its previous value; otherwise the field is
updated. -/
def setEvict (st : CacheState) (v : Str) : Except PyErr CacheState :=
  if validEvict v then .ok { st with evict := v }
  else .error (.valueError ("Expected ".toList ++ v ++ " to be one of the evict policies.".toList))

/-- Modelled from the spec: assignment through the `cull_size` validator
descriptor (§4.6), a bounded-number validator with lower bound 0. -/
def setCullSize (st : CacheState) (v : Int) : Except PyErr CacheState :=
  if validNonNegative v then .ok { st with cull_size := v }
  else .error (.valueError ("Expected ".toList ++ (toString v).toList ++ " to be at least 0.".toList))

/-- `BaseCache.config(**kwargs)`: `self.evict = kwargs.get('evict',
DEFAULT_EVICT)` followed by `self.cull_size = kwargs.get('cull_size',
DEFAULT_CULL_SIZE)`.  Each assignment runs its validator; a validation error
propagates as an exception, but any assignment already committed keeps its new
value, so the pair `(state after the call, raised error)` is returned. -/
def config (st : CacheState) (evictOpt : Option Str) (cullOpt : Option Int) :
    CacheState × Option PyErr :=
  match setEvict st (evictOpt.getD DEFAULT_EVICT) with
  | .error e => (st, some e)
  | .ok st1 =>
    match setCullSize st1 (cullOpt.getD DEFAULT_CULL_SIZE) with
    | .error e => (st1, some e)
    | .ok st2 => (st2, none)

/-- `BaseCache.__init__(name, timeout, max_size)`: assigns `name`, `timeout`
and `max_size` through their validators (an out-of-bounds argument raises and
aborts construction), then `evict := DEFAULT_EVICT` and `cull_size := 10`,
which always pass their validators (`DEFAULT_EVICT` is enumerated and
`10 ≥ 0`). -/
def initCache (name : Str) (timeout : ℚ) (max_size : Int) :
    Except PyErr CacheState :=
  if validName name = false then
    .error (.valueError ("Expected ".toList ++ name ++ " to be a bounded string.".toList))
  else if validTimeout timeout = false then
    .error (.valueError "Expected timeout to be within bounds.".toList)
  else if validNonNegative max_size = false then
    .error (.valueError "Expected max_size to be at least 0.".toList)
  else
    .ok ⟨name, timeout, max_size, DEFAULT_EVICT, 10⟩

/-- `BaseCache.get_backend_timeout(timeout=DEFAULT_TIMEOUT)`: when the
argument equals the sentinel `DEFAULT_TIMEOUT` it is replaced by
`self._timeout` (the descriptor-stored configured timeout, `self_timeout`
here); the result is `None` when the resolved timeout is `None`, and
`current() + timeout` otherwise (`now` models the clock reading). -/
def get_backend_timeout (self_timeout : ℚ) (now : ℚ) (timeout : Option ℚ) :
    Option ℚ :=
  let t := if timeout = some DEFAULT_TIMEOUT then some self_timeout else timeout
  match t with
  | none => none
  | some v => some (now + v)

/-- A member found by attribute lookup on the concrete backend object: all the
contract layer inspects is whether it is callable. -/
structure PyAttr where
  isCallable : Bool
  deriving DecidableEq, Repr

/-- The value returned by the `evictor` property: either the backend member the
policy name resolved to, or the builtin `object` class — a callable whose
invocation just creates an inert instance, a no-op with respect to the
cache. -/
inductive EvictorResult where
  | member (a : PyAttr)
  | objectClass
  deriving DecidableEq, Repr

/-- Whether the resolved evictor is callable; `object` is callable. -/
def EvictorResult.callable : EvictorResult → Bool
  | .member a => a.isCallable
  | .objectClass => true

/-- `BaseCache.evictor`: `getattr(self, self._evict, empty)`.  A missing
attribute (the `empty` sentinel default, so `getattr` never raises) warns and
falls back to `object`; a non-callable attribute warns and falls back to
`object`; a callable attribute is returned as is.  The backend's attribute
table is `attrs` and the configured policy name is `self_evict`. -/
def evictor (attrs : Str → Option PyAttr) (self_evict : Str) :
    EvictorResult × List Warn :=
  match attrs self_evict with
  | none => (.objectClass, [.runtimeWarning])
  | some a =>
    if a.isCallable then (.member a, [])
    else (.objectClass, [.runtimeWarning])

/-- A Python dict keyed by strings, modelled extensionally. -/
def PyDict (V : Type) : Type := Str → Option V

/-- `returns[key] = value` on the modelled dict. -/
def dictSet {V : Type} (d : PyDict V) (k : Str) (v : V) : PyDict V :=
  fun x => if x = k then some v else d x

/-- One iteration of the `get_many` loop: `value = self.get(key, empty, tag)`
with the backend's single-key lookup modelled as `get : key → tag → Option
value` (`Option.none` is the unique `empty` sentinel, distinguishable from
every legitimate stored value); the key is inserted exactly when the lookup
did not return the sentinel. -/
def getManyStep {V : Type} (get : Str → Str → Option V) (tag : Str)
    (d : PyDict V) (key : Str) : PyDict V :=
  match get key tag with
  | some v => dictSet d key v
  | none => d

/-- `BaseCache.get_many(keys, tag)`: folds the loop body over `keys` starting
from the empty dict. -/
def get_many {V : Type} (get : Str → Str → Option V) (keys : List Str)
    (tag : Str) : PyDict V :=
  keys.foldl (getManyStep get tag) (fun _ => none)

/-- Modelled from the spec: the backend `set`/`get` primitives are abstract in
`base.py` (they raise `NotImplementedError`); §4.5 and §6 describe them as a
store keyed by `(key, tag)` whose `get` returns the caller's default on a
miss.  Entries also record the timeout passed to `set`.  The reference store
is an association list with newest entries first. -/
def Store (V : Type) : Type := List ((Str × Str) × (V × ℚ))

/-- Modelled from the spec: backend `get(key, default, tag)` specialised to
the `empty` sentinel default — `Option.none` is the sentinel, `Option.some v`
a stored value. -/
def storeGet {V : Type} (s : Store V) (key tag : Str) : Option V :=
  (s.find? (fun e => e.1 = (key, tag))).map (fun e => e.2.1)

/-- Modelled from the spec: backend `set(key, value, timeout, tag)` on the
reference store. -/
def storeSet {V : Type} (s : Store V) (key : Str) (v : V) (timeout : ℚ)
    (tag : Str) : Store V :=
  ((key, tag), (v, timeout)) :: s

/-- The wrapper produced by `BaseCache.memoize(tag, timeout)` applied to a
callable with `__name__ = funcName` and body `f`, invoked on `arg`:
`value = self.get(func.__name__, empty, tag)`; on the sentinel, `value =
func(*args)` and `self.set(func.__name__, value, timeout, tag)`.  Returns the
value, the store after the call, and whether `f` was invoked. -/
def memoizeWrapper {A V : Type} (funcName : Str) (f : A → V) (tag : Str)
    (timeout : ℚ) (store : Store V) (arg : A) : V × Store V × Bool :=
  match storeGet store funcName tag with
  | some v => (v, store, false)
  | none =>
    let v := f arg
    (v, storeSet store funcName v timeout tag, true)

/-- Whether a modelled Python value is a string (`isinstance(key, str)`). -/
def isinstance_str : PyObj → Bool
  | .str _ => true
  | _ => false

theorem validate_key_str_fst (s : Str) :
    (validate_key (PyObj.str s)).1 = (none, true) := by
  by_cases hl : MAX_KEY_LENGTH < s.length <;> simp [validate_key, hl]

theorem rsplitOnce_eq_none {sep : Char} {s : Str} (h : sep ∉ s) :
    rsplitOnce sep s = none := by
  induction s with
  | nil => rfl
  | cons c cs ih =>
    have h1 : sep ∉ cs := fun hm => h (List.mem_cons_of_mem _ hm)
    have h2 : ¬ c = sep := fun he => h (by simp [he])
    simp [rsplitOnce, ih h1, h2]

theorem rsplitOnce_last {sep : Char} (k t : Str) (h : sep ∉ t) :
    rsplitOnce sep (k ++ sep :: t) = some (k, t) := by
  induction k with
  | nil => simp [rsplitOnce, rsplitOnce_eq_none h]
  | cons c cs ih => simp [rsplitOnce, ih]

/-- C5: for every raw key `k` and separator-free tag `t`, composing with
`make_key` and splitting with `_get_key_tag` recovers the pair `[k, t]`; the
split is on the last separator, so this holds also when `k` itself contains
`':'`. -/
theorem make_key_roundtrip (k t : Str) (h : ':' ∉ t) :
    make_key k (some t) = Except.ok (k ++ ':' :: t) ∧
    get_key_tag (k ++ ':' :: t) = [k, t] := by
  refine ⟨by simp [make_key, h], ?_⟩
  simp [get_key_tag, rsplitOnce_last k t h]

/-- C5 witness: a raw key that itself contains the separator round-trips. -/
theorem make_key_roundtrip_witness :
    ':' ∉ "t1".toList ∧
    (make_key "user:1".toList (some "t1".toList) =
        Except.ok ("user:1".toList ++ ':' :: "t1".toList) ∧
      get_key_tag ("user:1".toList ++ ':' :: "t1".toList) =
        ["user:1".toList, "t1".toList]) :=
  ⟨by decide, make_key_roundtrip "user:1".toList "t1".toList (by decide)⟩

/-- C9: for every raw key, a tag containing the separator makes `make_key`
raise (a `ValueError` in the code; the spec calls the condition `InvalidTag`),
and no composed key is ever returned for such a tag. -/
theorem make_key_invalid_tag (k t : Str) (h : ':' ∈ t) :
    make_key k (some t) =
      Except.error (PyErr.valueError "The ':' is not expected in tag.".toList) ∧
    ∀ s, make_key k (some t) ≠ Except.ok s :=
  ⟨by simp [make_key, h], by simp [make_key, h]⟩

/-- C9 witness at a concrete separator-carrying tag. -/
theorem make_key_invalid_tag_witness :
    ':' ∈ "a:b".toList ∧
    (make_key "k".toList (some "a:b".toList) =
        Except.error (PyErr.valueError "The ':' is not expected in tag.".toList) ∧
      ∀ s, make_key "k".toList (some "a:b".toList) ≠ Except.ok s) :=
  ⟨by decide, make_key_invalid_tag "k".toList "a:b".toList (by decide)⟩

/-- C2: contrary to the claim, an absent tag is NOT replaced by the default
tag constant: `make_and_validate_key` defaults `tag` to `None`, and
`make_key`'s membership test `':' in None` raises `TypeError`, so the call
fails instead of returning the key composed with `DEFAULT_TAG` (shown second
for contrast). -/
theorem make_and_validate_key_absent_tag_raises :
    make_and_validate_key "k".toList none =
      (Except.error
        (PyErr.typeError "argument of type 'NoneType' is not iterable".toList), []) ∧
    make_key "k".toList (some DEFAULT_TAG) =
      Except.ok ("k".toList ++ ':' :: DEFAULT_TAG) :=
  ⟨rfl, rfl⟩

/-- C10: for every raw key and separator-free tag, the default pipeline
returns the composed key and the `InvalidCacheKey` branch is unreachable:
`make_key` yields a string and `validate_key` succeeds on every string. -/
theorem make_and_validate_key_total (key t : Str) (h : ':' ∉ t) :
    (make_and_validate_key key (some t)).1 = Except.ok (key ++ ':' :: t) ∧
    ∀ m, (make_and_validate_key key (some t)).1 ≠
        Except.error (PyErr.invalidCacheKey m) := by
  have hmk : make_key key (some t) = Except.ok (key ++ ':' :: t) := by
    simp [make_key, h]
  have heq : (make_and_validate_key key (some t)).1 = Except.ok (key ++ ':' :: t) := by
    unfold make_and_validate_key
    rw [hmk]
    simp [validate_key_str_fst]
  refine ⟨heq, fun m hm => ?_⟩
  rw [heq] at hm
  exact Except.noConfusion hm

/-- C10 witness at a concrete key and tag. -/
theorem make_and_validate_key_total_witness :
    ':' ∉ "tag".toList ∧
    ((make_and_validate_key "k1".toList (some "tag".toList)).1 =
        Except.ok ("k1".toList ++ ':' :: "tag".toList) ∧
      ∀ m, (make_and_validate_key "k1".toList (some "tag".toList)).1 ≠
          Except.error (PyErr.invalidCacheKey m)) :=
  ⟨by decide, make_and_validate_key_total "k1".toList "tag".toList (by decide)⟩

/-- C8: `validate_key` signals invalid (with a message) exactly for
non-string inputs; every string key validates successfully, emitting a
`CacheKeyWarning` exactly when it is longer than `MAX_KEY_LENGTH`. -/
theorem validate_key_spec (key : PyObj) :
    ((validate_key key).1.2 = isinstance_str key) ∧
    (isinstance_str key = false → ∃ m, (validate_key key).1.1 = some m) ∧
    (∀ s, key = PyObj.str s →
      (validate_key key).1 = (none, true) ∧
      (validate_key key).2 =
        if MAX_KEY_LENGTH < s.length then [Warn.cacheKeyWarning] else []) := by
  cases key with
  | str s =>
    by_cases hl : MAX_KEY_LENGTH < s.length <;>
      simp [validate_key, isinstance_str, hl]
    omega
  | int n => simp [validate_key, isinstance_str]
  | pyNone => simp [validate_key, isinstance_str]
  | objInst i => simp [validate_key, isinstance_str]

/-- C8 witness: an oversized string key still validates but warns once. -/
theorem validate_key_spec_witness :
    (validate_key (PyObj.str (List.replicate 1025 'a'))).1 = (none, true) ∧
    (validate_key (PyObj.str (List.replicate 1025 'a'))).2 =
      if MAX_KEY_LENGTH < (List.replicate 1025 'a').length
      then [Warn.cacheKeyWarning] else [] :=
  (validate_key_spec (PyObj.str (List.replicate 1025 'a'))).2.2
    (List.replicate 1025 'a') rfl

/-- C1 counterexample: starting from a validly configured cache, calling
`config` with a valid new `evict` and an invalid `cull_size` raises from the
`cull_size` validator, yet the `evict` field no longer holds its pre-call
value — the assignments are sequential, not atomic. -/
theorem config_not_atomic_counterexample :
    (config ⟨DEFAULT_NAME, 300, 10000, EVICT_LRU, 10⟩
        (some EVICT_FIFO) (some (-1))).2.isSome = true ∧
    (config ⟨DEFAULT_NAME, 300, 10000, EVICT_LRU, 10⟩
        (some EVICT_FIFO) (some (-1))).1.evict = EVICT_FIFO ∧
    EVICT_FIFO ≠ EVICT_LRU := by
  decide

/-- C1 amended: `config` assigns `evict` and then `cull_size`, each validated
on assignment with process-wide defaults for unspecified options; a failing
`evict` assignment leaves both fields unchanged, but a failing `cull_size`
assignment happens after `evict` has already been committed, so the pair is
not replaced atomically. -/
theorem config_sequential (st : CacheState) (evictOpt : Option Str)
    (cullOpt : Option Int) :
    (validEvict (evictOpt.getD DEFAULT_EVICT) = false →
      (config st evictOpt cullOpt).1 = st ∧
      (config st evictOpt cullOpt).2.isSome = true) ∧
    (validEvict (evictOpt.getD DEFAULT_EVICT) = true →
      validNonNegative (cullOpt.getD DEFAULT_CULL_SIZE) = false →
      (config st evictOpt cullOpt).1 =
        { st with evict := evictOpt.getD DEFAULT_EVICT } ∧
      (config st evictOpt cullOpt).2.isSome = true) ∧
    (validEvict (evictOpt.getD DEFAULT_EVICT) = true →
      validNonNegative (cullOpt.getD DEFAULT_CULL_SIZE) = true →
      config st evictOpt cullOpt =
        ({ st with evict := evictOpt.getD DEFAULT_EVICT,
                   cull_size := cullOpt.getD DEFAULT_CULL_SIZE }, none)) := by
  refine ⟨fun h1 => ?_, fun h1 h2 => ?_, fun h1 h2 => ?_⟩
  · simp [config, setEvict, setCullSize, h1]
  · simp [config, setEvict, setCullSize, h1, h2]
  · simp [config, setEvict, setCullSize, h1, h2]

/-- C1 amended witness: a valid evict with an invalid cull size commits the
evict change and raises. -/
theorem config_sequential_witness :
    validEvict ((some EVICT_LFU).getD DEFAULT_EVICT) = true ∧
    validNonNegative ((some (-5 : Int)).getD DEFAULT_CULL_SIZE) = false ∧
    ((config ⟨DEFAULT_NAME, 300, 10000, EVICT_LRU, 10⟩
        (some EVICT_LFU) (some (-5))).1 =
      { (⟨DEFAULT_NAME, 300, 10000, EVICT_LRU, 10⟩ : CacheState) with
          evict := (some EVICT_LFU).getD DEFAULT_EVICT } ∧
      (config ⟨DEFAULT_NAME, 300, 10000, EVICT_LRU, 10⟩
        (some EVICT_LFU) (some (-5))).2.isSome = true) :=
  ⟨by decide, by decide,
    (config_sequential ⟨DEFAULT_NAME, 300, 10000, EVICT_LRU, 10⟩
        (some EVICT_LFU) (some (-5))).2.1 (by decide) (by decide)⟩

/-- C3: for a cache built by the constructor, `get_backend_timeout` returns
`None` when the resolved timeout is `None`, `now + timeout` otherwise, and the
"use default" sentinel is first replaced by the timeout configured at
construction (the descriptor-stored field `self._timeout`, here
`st.timeout`). -/
theorem get_backend_timeout_spec (name : Str) (t : ℚ) (ms : Int) (now : ℚ)
    (st : CacheState) (h : initCache name t ms = Except.ok st) :
    st.timeout = t ∧
    get_backend_timeout st.timeout now (some DEFAULT_TIMEOUT) = some (now + t) ∧
    get_backend_timeout st.timeout now none = none ∧
    ∀ x : ℚ, x ≠ DEFAULT_TIMEOUT →
      get_backend_timeout st.timeout now (some x) = some (now + x) := by
  have hst : st.timeout = t := by
    unfold initCache at h
    by_cases h1 : validName name = false
    · simp [h1] at h
    · by_cases h2 : validTimeout t = false
      · simp [h1, h2] at h
      · by_cases h3 : validNonNegative ms = false
        · simp [h1, h2, h3] at h
        · simp [h1, h2, h3] at h
          rw [← h]
  refine ⟨hst, ?_, ?_, ?_⟩
  · simp [get_backend_timeout, hst]
  · simp [get_backend_timeout]
  · intro x hx
    simp [get_backend_timeout, hx]

/-- C3 witness at a concretely constructed cache and clock reading. -/
theorem get_backend_timeout_spec_witness :
    initCache DEFAULT_NAME 5 0 =
      Except.ok ⟨DEFAULT_NAME, 5, 0, DEFAULT_EVICT, 10⟩ ∧
    (⟨DEFAULT_NAME, 5, 0, DEFAULT_EVICT, 10⟩ : CacheState).timeout = 5 ∧
    get_backend_timeout
        (⟨DEFAULT_NAME, 5, 0, DEFAULT_EVICT, 10⟩ : CacheState).timeout 7
        (some DEFAULT_TIMEOUT) = some (7 + 5) ∧
    get_backend_timeout
        (⟨DEFAULT_NAME, 5, 0, DEFAULT_EVICT, 10⟩ : CacheState).timeout 7
        none = none ∧
    ((9 : ℚ) ≠ DEFAULT_TIMEOUT ∧
      get_backend_timeout
          (⟨DEFAULT_NAME, 5, 0, DEFAULT_EVICT, 10⟩ : CacheState).timeout 7
          (some 9) = some (7 + 9)) :=
  ⟨rfl,
    (get_backend_timeout_spec DEFAULT_NAME 5 0 7 _ rfl).1,
    (get_backend_timeout_spec DEFAULT_NAME 5 0 7 _ rfl).2.1,
    (get_backend_timeout_spec DEFAULT_NAME 5 0 7 _ rfl).2.2.1,
    by decide,
    (get_backend_timeout_spec DEFAULT_NAME 5 0 7 _ rfl).2.2.2 9 (by decide)⟩

/-- C4: whenever the configured policy name resolves to no backend member, or
to a non-callable one, the `evictor` property returns the callable no-op
fallback (`object`) and emits exactly one non-fatal warning; the lookup uses a
default sentinel, so resolution never raises. -/
theorem evictor_degrades_safely (attrs : Str → Option PyAttr) (ename : Str)
    (h : attrs ename = none ∨
      ∃ a, attrs ename = some a ∧ a.isCallable = false) :
    (evictor attrs ename).1 = EvictorResult.objectClass ∧
    ((evictor attrs ename).1).callable = true ∧
    (evictor attrs ename).2 = [Warn.runtimeWarning] := by
  rcases h with h | ⟨a, ha, hc⟩
  · simp [evictor, h, EvictorResult.callable]
  · simp [evictor, ha, hc, EvictorResult.callable]

/-- C4 witness: a backend exposing no attributes degrades to the no-op with
one warning. -/
theorem evictor_degrades_safely_witness :
    ((fun _ : Str => (none : Option PyAttr)) EVICT_LRU = none ∨
      ∃ a, (fun _ : Str => (none : Option PyAttr)) EVICT_LRU = some a ∧
        a.isCallable = false) ∧
    ((evictor (fun _ => none) EVICT_LRU).1 = EvictorResult.objectClass ∧
      ((evictor (fun _ => none) EVICT_LRU).1).callable = true ∧
      (evictor (fun _ => none) EVICT_LRU).2 = [Warn.runtimeWarning]) :=
  ⟨Or.inl rfl, evictor_degrades_safely (fun _ => none) EVICT_LRU (Or.inl rfl)⟩

theorem get_many_foldl {V : Type} (get : Str → Str → Option V) (tag : Str) :
    ∀ (keys : List Str) (d : PyDict V) (k : Str),
      keys.foldl (getManyStep get tag) d k =
        if k ∈ keys ∧ (get k tag).isSome then get k tag else d k := by
  intro keys
  induction keys with
  | nil => intro d k; simp
  | cons key rest ih =>
    intro d k
    rw [List.foldl_cons, ih]
    by_cases hmem : k ∈ rest ∧ (get k tag).isSome
    · simp [hmem, List.mem_cons, hmem.1, hmem.2]
    · by_cases hkey : k = key
      · subst hkey
        cases hv : get k tag with
        | none => simp [hmem, getManyStep, hv]
        | some v => simp [hmem, getManyStep, hv, dictSet]
      · have hne : getManyStep get tag d key k = d k := by
          cases hv : get key tag with
          | none => simp [getManyStep, hv]
          | some v => simp [getManyStep, hv, dictSet, hkey]
        rw [hne]
        have : (k ∈ key :: rest ∧ (get k tag).isSome) ↔
            (k ∈ rest ∧ (get k tag).isSome) := by
          simp [List.mem_cons, hkey]
        rw [if_congr this rfl rfl]

/-- C7: `get_many` equals the mapping containing exactly the keys whose
single-key lookup (with the unique absent sentinel as default) did not return
the sentinel, each bound to that value, for every backend lookup function;
consequently the result depends only on the membership of `keys`, so it is
order independent and duplicates collapse. -/
theorem get_many_spec {V : Type} (get : Str → Str → Option V)
    (keys : List Str) (tag : Str) :
    (∀ k, get_many get keys tag k = if k ∈ keys then get k tag else none) ∧
    (∀ keys2 : List Str, (∀ k, k ∈ keys ↔ k ∈ keys2) →
      ∀ k, get_many get keys tag k = get_many get keys2 tag k) := by
  have hchar : ∀ (ks : List Str) (k : Str),
      get_many get ks tag k = if k ∈ ks then get k tag else none := by
    intro ks k
    unfold get_many
    rw [get_many_foldl]
    by_cases h1 : k ∈ ks
    · by_cases h2 : (get k tag).isSome
      · simp [h1, h2]
      · simp [h1, h2, Option.not_isSome_iff_eq_none.mp h2]
    · simp [h1]
  refine ⟨hchar keys, fun keys2 hiff k => ?_⟩
  rw [hchar keys k, hchar keys2 k, if_congr (hiff k) rfl rfl]

/-- C7 witness: duplicate keys collapse and a missing key is absent from the
result. -/
theorem get_many_spec_witness :
    (get_many (fun k _ => if k = "a".toList then some (1 : Nat) else none)
        ["a".toList, "b".toList, "a".toList] DEFAULT_TAG "a".toList =
      if "a".toList ∈ ["a".toList, "b".toList, "a".toList]
      then (if "a".toList = "a".toList then some (1 : Nat) else none)
      else none) ∧
    get_many (fun k _ => if k = "a".toList then some (1 : Nat) else none)
        ["a".toList, "b".toList, "a".toList] DEFAULT_TAG "b".toList =
      get_many (fun k _ => if k = "a".toList then some (1 : Nat) else none)
        ["b".toList, "a".toList] DEFAULT_TAG "b".toList :=
  ⟨(get_many_spec (fun k _ => if k = "a".toList then some (1 : Nat) else none)
      ["a".toList, "b".toList, "a".toList] DEFAULT_TAG).1 "a".toList,
    (get_many_spec (fun k _ => if k = "a".toList then some (1 : Nat) else none)
      ["a".toList, "b".toList, "a".toList] DEFAULT_TAG).2
      ["b".toList, "a".toList]
      (by intro k; simp [List.mem_cons]; tauto) "b".toList⟩

/-- C6: the memoize wrapper keys on the computation's identifier only: when
the key is initially absent, the first call with argument `a` invokes `f`,
stores `f a` under `(funcName, tag)` with the wrapper's timeout and returns
it; a second call with ANY argument `b` returns the cached `f a` without
invoking `f` and leaves the store unchanged. -/
theorem memoize_keys_on_name {A V : Type} (funcName : Str) (f : A → V)
    (tag : Str) (timeout : ℚ) (store : Store V) (a b : A)
    (h : storeGet store funcName tag = none) :
    memoizeWrapper funcName f tag timeout store a =
      (f a, storeSet store funcName (f a) timeout tag, true) ∧
    memoizeWrapper funcName f tag timeout
        (memoizeWrapper funcName f tag timeout store a).2.1 b =
      (f a, storeSet store funcName (f a) timeout tag, false) := by
  have h1 : memoizeWrapper funcName f tag timeout store a =
      (f a, storeSet store funcName (f a) timeout tag, true) := by
    simp [memoizeWrapper, h]
  have h2 : storeGet (storeSet store funcName (f a) timeout tag)
      funcName tag = some (f a) := by
    simp [storeGet, storeSet, List.find?]
  refine ⟨h1, ?_⟩
  rw [h1]
  simp [memoizeWrapper, h2]

/-- C6 witness: memoizing doubling, a first call with 1 caches 2 and a second
call with 5 still returns 2 without invoking the function. -/
theorem memoize_keys_on_name_witness :
    storeGet ([] : Store Nat) "f".toList DEFAULT_TAG = none ∧
    (memoizeWrapper "f".toList (fun n : Nat => n * 2) DEFAULT_TAG 300 [] 1 =
        (2, storeSet [] "f".toList 2 300 DEFAULT_TAG, true) ∧
      memoizeWrapper "f".toList (fun n : Nat => n * 2) DEFAULT_TAG 300
          (memoizeWrapper "f".toList (fun n : Nat => n * 2)
            DEFAULT_TAG 300 [] 1).2.1 5 =
        (2, storeSet [] "f".toList 2 300 DEFAULT_TAG, false)) :=
  ⟨rfl, memoize_keys_on_name "f".toList (fun n : Nat => n * 2)
      DEFAULT_TAG 300 [] 1 5 rfl⟩

end Cache3
